import Mathlib

/-!
Verification of the smart-building sensor simulator.

This file gives a shallow embedding, over `ℚ` and `ℤ`, of the simulation
core found in `sensors.py`, `room_profiles.py` and `main.py`:

* Python floats are modelled as rationals.  `round(x, n)` is modelled with
  Mathlib's `round` (round-half-up); Python uses round-half-even, the two
  agree except at exact ties, and no theorem below depends on the tie
  direction.  `int(x)` (truncation toward zero) is `pyInt`, and the float
  `%` operator is `pyMod`.
* Every call to the global random generator becomes an explicit input to
  the function that consumes it (one field per draw site), with the draw's
  documented range appearing as a hypothesis where a theorem needs it.
* Mutable objects become explicit state records; a method that mutates
  `self` returns the new state.
-/

/-- Python `round(x, n)`: rounding to `n` decimal places, on rationals. -/
def roundTo (n : ℕ) (q : ℚ) : ℚ := (round (q * (10 : ℚ) ^ n) : ℚ) / (10 : ℚ) ^ n

/-- Python `int(x)`: truncation toward zero. -/
def pyInt (q : ℚ) : ℤ := if 0 ≤ q then ⌊q⌋ else ⌈q⌉

/-- Python float `a % b` (for `b > 0`): `a - b * ⌊a / b⌋`. -/
def pyMod (a b : ℚ) : ℚ := a - b * ⌊a / b⌋

/-- Association-list lookup keyed by decidable equality, modelling a Python
dict membership test plus indexing (`if k in d: d[k]`). -/
def lookupKey {κ α : Type} [DecidableEq κ] : List (κ × α) → κ → Option α
  | [], _ => none
  | (k, v) :: rest, key => if key = k then some v else lookupKey rest key

/-! ## Sensor models (`sensors.py`) -/

/-- State of `TemperatureSensor`: `base_temp`, `current_temp`, `drift_rate`. -/
structure TemperatureSensor where
  base_temp : ℚ
  current_temp : ℚ
  drift_rate : ℚ
deriving DecidableEq

/-- Random draws consumed by one `TemperatureSensor.read` call:
`fluct = random.uniform(-0.1, 0.1)`, `resetDraw = random.random()`,
`newDrift = random.uniform(-0.01, 0.01)`. -/
structure TempRand where
  fluct : ℚ
  resetDraw : ℚ
  newDrift : ℚ
deriving DecidableEq

/-- `TemperatureSensor.read` (sensors.py lines 41-53): drift plus noise,
clamp to [18, 28], occasionally re-randomize the drift, return the clamped
temperature rounded to 2 decimals. -/
def TemperatureSensor.read (s : TemperatureSensor) (r : TempRand) : ℚ × TemperatureSensor :=
  let t := s.current_temp + s.drift_rate + r.fluct
  let t2 := max 18 (min 28 t)
  let d := if r.resetDraw < 1 / 100 then r.newDrift else s.drift_rate
  (roundTo 2 t2, { s with current_temp := t2, drift_rate := d })

/-- State of `HumiditySensor`. -/
structure HumiditySensor where
  base_humidity : ℚ
  current_humidity : ℚ
deriving DecidableEq

/-- `HumiditySensor.read` (sensors.py lines 64-68): random walk with step
`random.uniform(-0.5, 0.5)` passed as `noise`, clamped to [30, 70]. -/
def HumiditySensor.read (s : HumiditySensor) (noise : ℚ) : ℚ × HumiditySensor :=
  let h := max 30 (min 70 (s.current_humidity + noise))
  (roundTo 2 h, { s with current_humidity := h })

/-- State of `CO2Sensor`; `occupancy_multiplier` is set by `set_occupancy`. -/
structure CO2Sensor where
  base_co2 : ℚ
  current_co2 : ℚ
  occupancy_multiplier : ℚ
deriving DecidableEq

/-- `CO2Sensor.set_occupancy` (sensors.py lines 80-82). -/
def CO2Sensor.set_occupancy (s : CO2Sensor) (count : ℤ) : CO2Sensor :=
  { s with occupancy_multiplier := 1 + (count : ℚ) * (1 / 10) }

/-- `CO2Sensor.read` (sensors.py lines 84-89): exponential approach toward
`base_co2 * occupancy_multiplier` plus noise in [-10, 10], clamped to
[400, 2000]. -/
def CO2Sensor.read (s : CO2Sensor) (noise : ℚ) : ℚ × CO2Sensor :=
  let target := s.base_co2 * s.occupancy_multiplier
  let c := s.current_co2 + (target - s.current_co2) * (1 / 10) + noise
  let c2 := max 400 (min 2000 c)
  (roundTo 2 c2, { s with current_co2 := c2 })

/-- State of `AirQualitySensor`. -/
structure AirQualitySensor where
  current_aqi : ℚ
deriving DecidableEq

/-- `AirQualitySensor.read` (sensors.py lines 99-103): random walk with
step in [-2, 2], clamped to [0, 100]. -/
def AirQualitySensor.read (s : AirQualitySensor) (noise : ℚ) : ℚ × AirQualitySensor :=
  let a := max 0 (min 100 (s.current_aqi + noise))
  (roundTo 2 a, ⟨a⟩)

/-- State of `LightSensor`. -/
structure LightSensor where
  is_on : Bool
  lux_level : ℚ
deriving DecidableEq

/-- Random draws for one `LightSensor.read` call: `toggleDraw =
random.random()`; `onLux`/`offLux` stand for the single
`random.uniform(300, 600)` resp. `random.uniform(0, 50)` drawn in the
branch that is taken (the other field is ignored). -/
structure LightRand where
  toggleDraw : ℚ
  onLux : ℚ
  offLux : ℚ
deriving DecidableEq

/-- Documented ranges of the draws consumed by `LightSensor.read`. -/
def LightRand.Valid (r : LightRand) : Prop :=
  0 ≤ r.toggleDraw ∧ r.toggleDraw ≤ 1 ∧ 300 ≤ r.onLux ∧ r.onLux ≤ 600 ∧
    0 ≤ r.offLux ∧ r.offLux ≤ 50

instance (r : LightRand) : Decidable r.Valid := by
  unfold LightRand.Valid; infer_instance

/-- `LightSensor.read` (sensors.py lines 114-125): 2% chance to toggle
on/off, then draw the lux level from the range of the current state. -/
def LightSensor.read (s : LightSensor) (r : LightRand) : ℚ × LightSensor :=
  let b := if r.toggleDraw < 2 / 100 then !s.is_on else s.is_on
  let lux := if b then r.onLux else r.offLux
  (roundTo 2 lux, { is_on := b, lux_level := lux })

/-- State of `EnergySensor`; `consumption_rate` is drawn once at
construction from [0.001, 0.005]. -/
structure EnergySensor where
  cumulative_kwh : ℚ
  consumption_rate : ℚ
deriving DecidableEq

/-- `EnergySensor.read` (sensors.py lines 136-139): add the fixed rate to
the cumulative total, return it rounded to 5 decimals. -/
def EnergySensor.read (s : EnergySensor) : ℚ × EnergySensor :=
  let c := s.cumulative_kwh + s.consumption_rate
  (roundTo 5 c, { s with cumulative_kwh := c })

/-- State of `MotionSensor`. -/
structure MotionSensor where
  motion_detected : Bool
deriving DecidableEq

/-- `MotionSensor.read` (sensors.py lines 149-154): 10% chance to toggle,
report 1.0 / 0.0. -/
def MotionSensor.read (s : MotionSensor) (toggleDraw : ℚ) : ℚ × MotionSensor :=
  let m := if toggleDraw < 1 / 10 then !s.motion_detected else s.motion_detected
  ((if m then 1 else 0), ⟨m⟩)

/-- State of `OccupancySensor`. -/
structure OccupancySensor where
  max_occupancy : ℤ
  current_count : ℤ
deriving DecidableEq

/-- `OccupancySensor.read` (sensors.py lines 165-170): integer random walk
with step `change ∈ {-1, 0, 1}` (drawn from `[-1,0,0,0,1]`), clamped to
[0, max_occupancy]. -/
def OccupancySensor.read (s : OccupancySensor) (change : ℤ) : ℚ × OccupancySensor :=
  let c := max 0 (min s.max_occupancy (s.current_count + change))
  ((c : ℚ), { s with current_count := c })

/-! ## Traces of repeated `read()` calls -/

/-- Outputs of a sequence of `read()` calls: `step` is one call, consuming
one element of the list of random draws. -/
def readTrace {σ ρ : Type} (step : σ → ρ → ℚ × σ) : σ → List ρ → List ℚ
  | _, [] => []
  | s, r :: rs => (step s r).1 :: readTrace step (step s r).2 rs

theorem readTrace_sound {σ ρ : Type} (step : σ → ρ → ℚ × σ) (Inv : σ → Prop)
    (P : ρ → Prop) (Q : ℚ → Prop)
    (hout : ∀ s r, Inv s → P r → Q (step s r).1)
    (hpres : ∀ s r, Inv s → P r → Inv (step s r).2) :
    ∀ (s : σ) (rs : List ρ), Inv s → (∀ r ∈ rs, P r) →
      ∀ v ∈ readTrace step s rs, Q v := by
  intro s rs
  induction rs generalizing s with
  | nil => intro _ _ v hv; simp [readTrace] at hv
  | cons r rest ih =>
    intro hs hP v hv
    simp only [readTrace, List.mem_cons] at hv
    rcases hv with rfl | hv
    · exact hout s r hs (hP r (by simp))
    · exact ih (step s r).2 (hpres s r hs (hP r (by simp)))
        (fun x hx => hP x (by simp [hx])) v hv

/-! ## Arithmetic helper lemmas -/

theorem round_mono_q {a b : ℚ} (h : a ≤ b) : round a ≤ round b := by
  rw [round_eq, round_eq]
  exact Int.floor_le_floor (by linarith)

theorem roundTo_mono {n : ℕ} {a b : ℚ} (h : a ≤ b) : roundTo n a ≤ roundTo n b := by
  unfold roundTo
  have h10 : (0 : ℚ) < (10 : ℚ) ^ n := by positivity
  rw [div_le_div_iff_of_pos_right h10]
  exact_mod_cast round_mono_q (by nlinarith)

theorem roundTo_natCast (n m : ℕ) : roundTo n (m : ℚ) = m := by
  unfold roundTo
  have h1 : ((m : ℚ) * (10 : ℚ) ^ n) = ((m * 10 ^ n : ℕ) : ℚ) := by push_cast; ring
  have h10 : ((10 : ℚ) ^ n) ≠ 0 := by positivity
  rw [h1, round_natCast]
  push_cast
  rw [mul_div_assoc, div_self h10, mul_one]

/-- Rounding to `n` decimals keeps a value inside an interval with
natural-number endpoints. -/
theorem roundTo_mem_Icc (n a b : ℕ) {q : ℚ} (h1 : (a : ℚ) ≤ q) (h2 : q ≤ b) :
    (a : ℚ) ≤ roundTo n q ∧ roundTo n q ≤ b := by
  constructor
  · calc (a : ℚ) = roundTo n a := (roundTo_natCast n a).symm
    _ ≤ roundTo n q := roundTo_mono h1
  · calc roundTo n q ≤ roundTo n b := roundTo_mono h2
    _ = b := roundTo_natCast n b

theorem clamp_mem_Icc {a b x : ℚ} (hab : a ≤ b) :
    a ≤ max a (min b x) ∧ max a (min b x) ≤ b :=
  ⟨le_max_left a _, max_le hab (min_le_left b x)⟩

theorem pyInt_of_nonneg {q : ℚ} (h : 0 ≤ q) : pyInt q = ⌊q⌋ := if_pos h

theorem pyInt_nonneg {q : ℚ} (h : 0 ≤ q) : 0 ≤ pyInt q := by
  rw [pyInt_of_nonneg h]
  exact Int.floor_nonneg.mpr h

theorem pyInt_le {q : ℚ} (h : 0 ≤ q) : (pyInt q : ℚ) ≤ q := by
  rw [pyInt_of_nonneg h]
  exact Int.floor_le q

/-! ## Room profiles (`room_profiles.py`)

The telemetry record omits the `timestamp` field (an ISO string of the
wall clock, an external input with no bearing on any property below).
`datetime.utcnow().hour`, used by OpenOffice and ExecutiveOffice, is
passed in as the `hour` argument. -/

/-- Telemetry snapshot returned by every `get_telemetry`. -/
structure Telemetry where
  room_id : String
  temperature : ℚ
  humidity : ℚ
  co2_ppm : ℤ
  light_lux : ℤ
  occupancy_count : ℤ
  motion_detected : Bool
  energy_kwh : ℚ
  air_quality_index : ℤ
deriving DecidableEq

/-- `RoomProfile._add_noise` (room_profiles.py lines 24-27):
`value + value * (noise_percent / 100) * (random.random() - 0.5) * 2`,
with the `random.random()` draw passed as `u`. -/
def addNoise (value : ℚ) (noise_percent : ℚ) (u : ℚ) : ℚ :=
  value + value * (noise_percent / 100) * (u - 1 / 2) * 2

/-- Random draws for one `ServerRoom.get_telemetry` call; `aqi` is
`random.randint(90, 100)`. -/
structure ServerRoomRand where
  u_temp : ℚ
  u_hum : ℚ
  u_co2 : ℚ
  u_energy : ℚ
  aqi : ℤ
deriving DecidableEq

/-- `ServerRoom.get_telemetry` (room_profiles.py lines 42-63). -/
def ServerRoom.get_telemetry (r : ServerRoomRand) : Telemetry :=
  let temp := addNoise 19 1 r.u_temp
  let humidity := addNoise 35 3 r.u_hum
  let co2 := addNoise 450 5 r.u_co2
  let energy := addNoise (23 / 10) 8 r.u_energy
  { room_id := "01"
    temperature := roundTo 2 temp
    humidity := roundTo 2 humidity
    co2_ppm := pyInt co2
    light_lux := 0
    occupancy_count := 0
    motion_detected := false
    energy_kwh := roundTo 3 energy
    air_quality_index := r.aqi }

/-- Regime state of `ConferenceRoom`. -/
structure ConfState where
  meeting_timer : ℚ
  meeting_active : Bool
deriving DecidableEq

/-- Initial `ConferenceRoom` state (room_profiles.py lines 69-72). -/
def ConferenceRoom.init : ConfState :=
  { meeting_timer := 0, meeting_active := false }

/-- Timer/regime update performed at the top of
`ConferenceRoom.get_telemetry` (room_profiles.py lines 75-81): advance the
logical timer by 0.5, reset it once it exceeds 3600, and set
`meeting_active = (timer % 3600) < 900`.  The update consumes no random
draws, so it is factored out of the full telemetry function. -/
def ConferenceRoom.tick (s : ConfState) : ConfState :=
  let t1 := s.meeting_timer + 1 / 2
  let t2 := if t1 > 3600 then 0 else t1
  { meeting_timer := t2, meeting_active := decide (pyMod t2 3600 < 900) }

/-- Random draws for one `ConferenceRoom.get_telemetry` call.  `light` and
`occ` stand for the single `random.randint` of whichever regime branch is
taken; `motionDraw` is the idle branch's `random.random()`. -/
structure ConfRand where
  u_temp : ℚ
  u_hum : ℚ
  u_co2 : ℚ
  u_energy : ℚ
  motionDraw : ℚ
  light : ℤ
  occ : ℤ
deriving DecidableEq

/-- `ConferenceRoom.get_telemetry` (room_profiles.py lines 74-113). -/
def ConferenceRoom.get_telemetry (s : ConfState) (r : ConfRand) : Telemetry × ConfState :=
  let s2 := ConferenceRoom.tick s
  if s2.meeting_active then
    let co2 := addNoise 1200 15 r.u_co2
    ({ room_id := "02"
       temperature := roundTo 2 (addNoise (47 / 2) 5 r.u_temp)
       humidity := roundTo 2 (addNoise 55 8 r.u_hum)
       co2_ppm := pyInt co2
       light_lux := r.light
       occupancy_count := r.occ
       motion_detected := true
       energy_kwh := roundTo 3 (addNoise (3 / 2) 20 r.u_energy)
       air_quality_index := max 50 (100 - pyInt (co2 / 20)) }, s2)
  else
    let co2 := addNoise 500 10 r.u_co2
    ({ room_id := "02"
       temperature := roundTo 2 (addNoise 21 3 r.u_temp)
       humidity := roundTo 2 (addNoise 45 5 r.u_hum)
       co2_ppm := pyInt co2
       light_lux := r.light
       occupancy_count := 0
       motion_detected := decide (r.motionDraw < 1 / 10)
       energy_kwh := roundTo 3 (addNoise (3 / 10) 15 r.u_energy)
       air_quality_index := max 50 (100 - pyInt (co2 / 20)) }, s2)

/-- Random draws for one `StorageCloset.get_telemetry` call; `aqi` is
`random.randint(85, 95)`. -/
structure StorageRand where
  u_temp : ℚ
  u_hum : ℚ
  u_co2 : ℚ
  u_energy : ℚ
  aqi : ℤ
deriving DecidableEq

/-- `StorageCloset.get_telemetry` (room_profiles.py lines 122-143). -/
def StorageCloset.get_telemetry (r : StorageRand) : Telemetry :=
  let temp := addNoise (41 / 2) 1 r.u_temp
  let humidity := addNoise 50 2 r.u_hum
  let co2 := addNoise 400 3 r.u_co2
  let energy := addNoise (1 / 20) 10 r.u_energy
  { room_id := "03"
    temperature := roundTo 2 temp
    humidity := roundTo 2 humidity
    co2_ppm := pyInt co2
    light_lux := 0
    occupancy_count := 0
    motion_detected := false
    energy_kwh := roundTo 3 energy
    air_quality_index := r.aqi }

/-- Regime state of `OpenOffice`: the `time_offset` phase accumulator
inherited from `RoomProfile`. -/
structure OpenOfficeState where
  time_offset : ℚ
deriving DecidableEq

/-- Random draws for one `OpenOffice.get_telemetry` call.  `sinVal` stands
for the value of `math.sin(2π · time_offset / (period · 60))` computed by
`_time_based_pattern`; the sine itself is transcendental, so its value is
supplied as an oracle input lying in [-1, 1]. -/
structure OpenOfficeRand where
  u_temp : ℚ
  u_hum : ℚ
  u_co2 : ℚ
  u_energy : ℚ
  motionDraw : ℚ
  sinVal : ℚ
  light : ℤ
  occ : ℤ
deriving DecidableEq

/-- `RoomProfile._time_based_pattern` (room_profiles.py lines 29-33):
advance the phase accumulator by the 0.5 publish interval and return
`base + amplitude * sin(phase)`, with the sine value given by `sinVal`. -/
def timeBasedPattern (s : OpenOfficeState) (base amplitude sinVal : ℚ) :
    ℚ × OpenOfficeState :=
  (base + amplitude * sinVal, ⟨s.time_offset + 1 / 2⟩)

/-- `OpenOffice.get_telemetry` (room_profiles.py lines 152-187); `hour` is
the wall-clock hour `datetime.utcnow().hour`. -/
def OpenOffice.get_telemetry (s : OpenOfficeState) (hour : ℕ) (r : OpenOfficeRand) :
    Telemetry × OpenOfficeState :=
  if 9 ≤ hour ∧ hour ≤ 17 then
    let p := timeBasedPattern s 22 (3 / 2) r.sinVal
    let co2 := addNoise 800 12 r.u_co2
    ({ room_id := "04"
       temperature := roundTo 2 p.1
       humidity := roundTo 2 (addNoise 48 5 r.u_hum)
       co2_ppm := pyInt co2
       light_lux := r.light
       occupancy_count := r.occ
       motion_detected := true
       energy_kwh := roundTo 3 (addNoise (6 / 5) 10 r.u_energy)
       air_quality_index := max 60 (100 - pyInt (co2 / 15)) }, p.2)
  else
    let co2 := addNoise 450 8 r.u_co2
    ({ room_id := "04"
       temperature := roundTo 2 (addNoise 20 2 r.u_temp)
       humidity := roundTo 2 (addNoise 45 3 r.u_hum)
       co2_ppm := pyInt co2
       light_lux := r.light
       occupancy_count := 0
       motion_detected := decide (r.motionDraw < 1 / 20)
       energy_kwh := roundTo 3 (addNoise (2 / 5) 10 r.u_energy)
       air_quality_index := max 60 (100 - pyInt (co2 / 15)) }, s)

/-- Regime state of `Kitchen`. -/
structure KitchenState where
  cooking_active : Bool
  cooking_timer : ℚ
deriving DecidableEq

/-- Initial `Kitchen` state (room_profiles.py lines 193-196). -/
def Kitchen.init : KitchenState := ⟨false, 0⟩

/-- Cooking-event state update performed at the top of
`Kitchen.get_telemetry` (room_profiles.py lines 199-207): with the start
draw below 2%, unconditionally (re)start a cooking episode of `duration`
seconds (`random.randint(300, 900)`); then, while active, decrement the
timer by 0.5 and deactivate once it is ≤ 0. -/
def Kitchen.tick (s : KitchenState) (startDraw : ℚ) (duration : ℤ) : KitchenState :=
  let s1 := if startDraw < 2 / 100 then ⟨true, (duration : ℚ)⟩ else s
  if s1.cooking_active then
    let t := s1.cooking_timer - 1 / 2
    if t ≤ 0 then ⟨false, t⟩ else ⟨true, t⟩
  else s1

/-- Cooking-event update as the claim words it, for comparison with
`Kitchen.tick`: a new episode starts with 2% probability ONLY when no
episode is already active; the rest is unchanged. -/
def Kitchen.tickOnlyWhenIdle (s : KitchenState) (startDraw : ℚ) (duration : ℤ) :
    KitchenState :=
  let s1 := if startDraw < 2 / 100 ∧ s.cooking_active = false
    then ⟨true, (duration : ℚ)⟩ else s
  if s1.cooking_active then
    let t := s1.cooking_timer - 1 / 2
    if t ≤ 0 then ⟨false, t⟩ else ⟨true, t⟩
  else s1

/-- Random draws for one `Kitchen.get_telemetry` call. -/
structure KitchenRand where
  startDraw : ℚ
  duration : ℤ
  u_temp : ℚ
  u_hum : ℚ
  u_co2 : ℚ
  u_energy : ℚ
  motionDraw : ℚ
  light : ℤ
  occ : ℤ
deriving DecidableEq

/-- `Kitchen.get_telemetry` (room_profiles.py lines 198-239). -/
def Kitchen.get_telemetry (s : KitchenState) (r : KitchenRand) : Telemetry × KitchenState :=
  let s2 := Kitchen.tick s r.startDraw r.duration
  if s2.cooking_active then
    let co2 := addNoise 1000 20 r.u_co2
    ({ room_id := "05"
       temperature := roundTo 2 (addNoise 28 10 r.u_temp)
       humidity := roundTo 2 (addNoise 70 12 r.u_hum)
       co2_ppm := pyInt co2
       light_lux := r.light
       occupancy_count := r.occ
       motion_detected := true
       energy_kwh := roundTo 3 (addNoise (7 / 2) 25 r.u_energy)
       air_quality_index := max 40 (100 - pyInt (co2 / 18)) }, s2)
  else
    let co2 := addNoise 550 10 r.u_co2
    ({ room_id := "05"
       temperature := roundTo 2 (addNoise 21 3 r.u_temp)
       humidity := roundTo 2 (addNoise 50 5 r.u_hum)
       co2_ppm := pyInt co2
       light_lux := r.light
       occupancy_count := r.occ
       motion_detected := decide (r.motionDraw < 3 / 10)
       energy_kwh := roundTo 3 (addNoise (3 / 5) 15 r.u_energy)
       air_quality_index := max 40 (100 - pyInt (co2 / 18)) }, s2)

/-- Random draws for one `LabWorkshop.get_telemetry` call; `aqi_poor` is
`random.randint(30, 50)` and `aqi_good` is `random.randint(55, 75)`, for
whichever branch of the 10% excursion is taken. -/
structure LabRand where
  u_temp : ℚ
  u_hum : ℚ
  u_co2 : ℚ
  u_energy : ℚ
  motionDraw : ℚ
  poorDraw : ℚ
  light : ℤ
  occ : ℤ
  aqi_poor : ℤ
  aqi_good : ℤ
deriving DecidableEq

/-- `LabWorkshop.get_telemetry` (room_profiles.py lines 248-275). -/
def LabWorkshop.get_telemetry (r : LabRand) : Telemetry :=
  { room_id := "06"
    temperature := roundTo 2 (addNoise 22 15 r.u_temp)
    humidity := roundTo 2 (addNoise 45 20 r.u_hum)
    co2_ppm := pyInt (addNoise 900 30 r.u_co2)
    light_lux := r.light
    occupancy_count := r.occ
    motion_detected := decide (r.motionDraw < 3 / 5)
    energy_kwh := roundTo 3 (addNoise (9 / 5) 40 r.u_energy)
    air_quality_index := if r.poorDraw < 1 / 10 then r.aqi_poor else r.aqi_good }

/-- Random draws for one `BreakRoom.get_telemetry` call; `aqi` is
`random.randint(75, 90)` and `useDraw` decides the 25% "in use" flag. -/
structure BreakRand where
  useDraw : ℚ
  u_temp : ℚ
  u_hum : ℚ
  u_co2 : ℚ
  u_energy : ℚ
  light : ℤ
  occ : ℤ
  aqi : ℤ
deriving DecidableEq

/-- `BreakRoom.get_telemetry` (room_profiles.py lines 284-308). -/
def BreakRoom.get_telemetry (r : BreakRand) : Telemetry :=
  let in_use := r.useDraw < 1 / 4
  { room_id := "07"
    temperature := roundTo 2 (addNoise (43 / 2) 2 r.u_temp)
    humidity := roundTo 2 (addNoise 47 4 r.u_hum)
    co2_ppm := pyInt (addNoise (if in_use then 600 else 450) 10 r.u_co2)
    light_lux := r.light
    occupancy_count := if in_use then r.occ else 0
    motion_detected := decide in_use
    energy_kwh := roundTo 3 (addNoise (if in_use then 4 / 5 else 3 / 10) 15 r.u_energy)
    air_quality_index := r.aqi }

/-- Random draws for one `ExecutiveOffice.get_telemetry` call; `aqi` is
`random.randint(85, 98)`. -/
structure ExecRand where
  u_temp : ℚ
  u_hum : ℚ
  u_co2 : ℚ
  u_energy : ℚ
  light : ℤ
  aqi : ℤ
deriving DecidableEq

/-- `ExecutiveOffice.get_telemetry` (room_profiles.py lines 317-342);
`hour` is the wall-clock hour. -/
def ExecutiveOffice.get_telemetry (hour : ℕ) (r : ExecRand) : Telemetry :=
  let is_work_hours := 9 ≤ hour ∧ hour ≤ 17
  { room_id := "08"
    temperature := roundTo 2 (addNoise 21 1 r.u_temp)
    humidity := roundTo 2 (addNoise 45 2 r.u_hum)
    co2_ppm := pyInt (addNoise (if is_work_hours then 650 else 420) 5 r.u_co2)
    light_lux := if is_work_hours then r.light else 0
    occupancy_count := if is_work_hours then 1 else 0
    motion_detected := decide is_work_hours
    energy_kwh := roundTo 3 (addNoise (if is_work_hours then 7 / 10 else 1 / 5) 8 r.u_energy)
    air_quality_index := r.aqi }

/-! ## Protocol servers (`sensors.py` lines 173-218) -/

/-- Response of a protocol read handler.  The bound branch packs the
address together with the sensor's fresh value; the unbound branch packs
the address with the distinguished `NaN` marker, which no sensor value
ever equals — it is modelled as the separate constructor `notFound`. -/
inductive ReadResponse where
  | value (addr : ℕ) (v : ℚ)
  | notFound (addr : ℕ)
deriving DecidableEq

/-- `BACnetServer`: a table mapping BACnet object ids to bound sensors,
polymorphic in the sensor state type `σ`. -/
structure BACnetServer (σ : Type) where
  sensors : List (ℕ × σ)

/-- `BACnetServer.handle_read_request` (sensors.py lines 183-194):
`get_value` is the bound sensor's read method (returning the fresh value
and the mutated sensor).  An unbound `object_id` yields the NaN-marker
response and touches no sensor. -/
def BACnetServer.handle_read_request {σ : Type} (get_value : σ → ℚ × σ)
    (srv : BACnetServer σ) (object_id : ℕ) : ReadResponse × BACnetServer σ :=
  match lookupKey srv.sensors object_id with
  | some s => (.value object_id (get_value s).1, srv)
  | none => (.notFound object_id, srv)

/-- `ModbusServer`: a table mapping Modbus register addresses to bound
sensors. -/
structure ModbusServer (σ : Type) where
  sensors : List (ℕ × σ)

/-- `ModbusServer.handle_read_request` (sensors.py lines 207-218). -/
def ModbusServer.handle_read_request {σ : Type} (get_value : σ → ℚ × σ)
    (srv : ModbusServer σ) (register : ℕ) : ReadResponse × ModbusServer σ :=
  match lookupKey srv.sensors register with
  | some s => (.value register (get_value s).1, srv)
  | none => (.notFound register, srv)

/-- Fixed-point encoding written into a holding register by
`ModbusSimulator.update_loop` (main.py line 128):
`scaled_value = int(value * 100)`. -/
def modbusScale (v : ℚ) : ℤ := pyInt (v * 100)

/-! ## Sensor factory and configuration loading (`main.py` lines 151-224) -/

/-- Tagged union over the eight sensor classes, as produced by the
factory. -/
inductive SensorState where
  | temperature (s : TemperatureSensor)
  | humidity (s : HumiditySensor)
  | co2 (s : CO2Sensor)
  | air_quality (s : AirQualitySensor)
  | light (s : LightSensor)
  | energy (s : EnergySensor)
  | motion (s : MotionSensor)
  | occupancy (s : OccupancySensor)
deriving DecidableEq

/-- Type tag of a constructed sensor, for matching a sensor against the
configuration tag that produced it. -/
def SensorState.kindTag : SensorState → String
  | .temperature _ => "temperature"
  | .humidity _ => "humidity"
  | .co2 _ => "co2"
  | .air_quality _ => "air_quality"
  | .light _ => "light"
  | .energy _ => "energy"
  | .motion _ => "motion"
  | .occupancy _ => "occupancy"

/-- One sensor instance as built by `SimulatorCoordinator._create_sensor`:
identity, room assignment, and type-specific state. -/
structure CreatedSensor where
  sensor_id : String
  room_id : String
  state : SensorState
deriving DecidableEq

/-- Random draws consumed by the sensor constructors (one field per
construction-time draw site in sensors.py). -/
structure InitRand where
  temp_drift : ℚ
  aqi_init : ℚ
  light_on : Bool
  energy_init : ℚ
  energy_rate : ℚ
  occ_init : ℤ
deriving DecidableEq

/-- The eight sensor type tags accepted by the factory. -/
def knownSensorTypes : List String :=
  ["temperature", "humidity", "co2", "air_quality", "light", "energy",
   "motion", "occupancy"]

/-- `SimulatorCoordinator._create_sensor` (main.py lines 205-224): factory
dispatch on the configuration type tag, with each branch invoking the
matching constructor at its default arguments (sensors.py `__init__`
bodies); an unrecognized tag raises `ValueError`, modelled as `.error`. -/
def createSensor (r : InitRand) (sensor_type sensor_id room_id : String) :
    Except String CreatedSensor :=
  if sensor_type = "temperature" then
    .ok ⟨sensor_id, room_id, .temperature ⟨21, 21, r.temp_drift⟩⟩
  else if sensor_type = "humidity" then
    .ok ⟨sensor_id, room_id, .humidity ⟨45, 45⟩⟩
  else if sensor_type = "co2" then
    .ok ⟨sensor_id, room_id, .co2 ⟨450, 450, 1⟩⟩
  else if sensor_type = "air_quality" then
    .ok ⟨sensor_id, room_id, .air_quality ⟨r.aqi_init⟩⟩
  else if sensor_type = "light" then
    .ok ⟨sensor_id, room_id, .light ⟨r.light_on, if r.light_on then 500 else 0⟩⟩
  else if sensor_type = "energy" then
    .ok ⟨sensor_id, room_id, .energy ⟨r.energy_init, r.energy_rate⟩⟩
  else if sensor_type = "motion" then
    .ok ⟨sensor_id, room_id, .motion ⟨false⟩⟩
  else if sensor_type = "occupancy" then
    .ok ⟨sensor_id, room_id, .occupancy ⟨15, r.occ_init⟩⟩
  else
    .error ("Unknown sensor type: " ++ sensor_type)

/-- One entry of `rooms.yaml`: a room id and its sensor-id list. -/
structure Room where
  id : String
  sensors : List String
deriving DecidableEq

/-- One entry of `sensors.yaml`.  The source reads `object_id` only for
BACnet entries and `register` only for Modbus entries; both fields are
carried here and the irrelevant one is ignored. -/
structure SensorConfig where
  id : String
  sensor_type : String
  protocol : String
  object_id : ℕ
  register : ℕ
deriving DecidableEq

/-- The `sensor_to_room` map built in `_load_config` (main.py lines
175-178).  Python dict assignment is last-write-wins, while `lookupKey`
returns the first match, so the flattened list is reversed; the two agree
whenever sensor ids are not repeated across rooms. -/
def sensorToRoom (rooms : List Room) : List (String × String) :=
  (rooms.flatMap (fun rm => rm.sensors.map (fun sid => (sid, rm.id)))).reverse

/-- Mutable maps of `SimulatorCoordinator` filled by `_load_config`. -/
structure Coordinator where
  sensors : List (String × CreatedSensor)
  bacnet_sensors : List (ℕ × CreatedSensor)
  modbus_sensors : List (ℕ × CreatedSensor)
deriving DecidableEq

/-- Processing of one `sensors.yaml` entry inside the `_load_config` loop
(main.py lines 184-200): resolve the room with default `'00'`, build the
sensor through the factory (a factory error propagates), store it under
its id, and bind it to its protocol address. -/
def processSensorConfig (roomMap : List (String × String)) (r : InitRand)
    (st : Coordinator) (cfg : SensorConfig) : Except String Coordinator :=
  let room_id := (lookupKey roomMap cfg.id).getD "00"
  match createSensor r cfg.sensor_type cfg.id room_id with
  | .error e => .error e
  | .ok sensor =>
    let st2 : Coordinator := { st with sensors := st.sensors ++ [(cfg.id, sensor)] }
    if cfg.protocol = "bacnet" then
      .ok { st2 with bacnet_sensors := st2.bacnet_sensors ++ [(cfg.object_id, sensor)] }
    else if cfg.protocol = "modbus" then
      .ok { st2 with modbus_sensors := st2.modbus_sensors ++ [(cfg.register, sensor)] }
    else
      .ok st2

/-- The whole `_load_config` sensor loop: process the entries in order;
the first factory error aborts the load (the exception propagates out of
`SimulatorCoordinator.__init__` and terminates startup). -/
def loadSensors (roomMap : List (String × String)) (r : InitRand) :
    Coordinator → List SensorConfig → Except String Coordinator
  | st, [] => .ok st
  | st, cfg :: rest =>
    match processSensorConfig roomMap r st cfg with
    | .error e => .error e
    | .ok st2 => loadSensors roomMap r st2 rest

/-- State of an `EnergySensor` after `n` successive `read()` calls. -/
def EnergySensor.iter (s : EnergySensor) : ℕ → EnergySensor
  | 0 => s
  | n + 1 => ((EnergySensor.iter s n).read).2

/-- Value returned by the `(n+1)`-th successive `read()` call. -/
def EnergySensor.output (s : EnergySensor) (n : ℕ) : ℚ := ((s.iter n).read).1

/-! ## Helper lemmas -/

theorem roundTo_fixed {n : ℕ} {a : ℚ} (h : roundTo n a = a) {q : ℚ} :
    (a ≤ q → a ≤ roundTo n q) ∧ (q ≤ a → roundTo n q ≤ a) :=
  ⟨fun h1 => h ▸ roundTo_mono h1, fun h2 => h ▸ roundTo_mono h2⟩

theorem addNoise_nonneg {v p u : ℚ} (hv : 0 ≤ v) (hp0 : 0 ≤ p) (hp : p ≤ 100)
    (hu0 : 0 ≤ u) : 0 ≤ addNoise v p u := by
  unfold addNoise
  nlinarith [mul_nonneg hv hp0, mul_nonneg (mul_nonneg hv hp0) hu0,
    mul_nonneg hv (sub_nonneg.mpr hp)]

/-- Bound shape of every CO2-derived air-quality index in
`room_profiles.py`: `max lo (100 - int(co2 / d))` lies in `[0, 100]` as
soon as the floor `lo` is in `[0, 100]` and the CO2 value is nonnegative. -/
theorem aqi_formula_bounds {lo : ℤ} {co2 d : ℚ} (hlo0 : 0 ≤ lo) (hlo1 : lo ≤ 100)
    (hc : 0 ≤ co2) (hd : 0 < d) :
    0 ≤ max lo (100 - pyInt (co2 / d)) ∧ max lo (100 - pyInt (co2 / d)) ≤ 100 := by
  have hq : (0 : ℚ) ≤ co2 / d := div_nonneg hc hd.le
  have h1 : 0 ≤ pyInt (co2 / d) := pyInt_nonneg hq
  exact ⟨le_trans hlo0 (le_max_left _ _), max_le hlo1 (by omega)⟩

theorem lookupKey_eq_none {κ α : Type} [DecidableEq κ] (l : List (κ × α)) (key : κ)
    (h : ∀ p ∈ l, key ≠ p.1) : lookupKey l key = none := by
  induction l with
  | nil => rfl
  | cons p rest ih =>
    obtain ⟨k, v⟩ := p
    rw [lookupKey, if_neg (h (k, v) (by simp))]
    exact ih fun q hq => h q (by simp [hq])

theorem sensorToRoom_key_mem {rooms : List Room} {p : String × String}
    (hp : p ∈ sensorToRoom rooms) : ∃ rm ∈ rooms, p.1 ∈ rm.sensors := by
  unfold sensorToRoom at hp
  rw [List.mem_reverse] at hp
  rw [List.mem_flatMap] at hp
  obtain ⟨rm, hrm, hmem⟩ := hp
  rw [List.mem_map] at hmem
  obtain ⟨sid, hsid, rfl⟩ := hmem
  exact ⟨rm, hrm, hsid⟩

theorem createSensor_unknown (r : InitRand) (t sid rid : String)
    (ht : t ∉ knownSensorTypes) :
    createSensor r t sid rid = .error ("Unknown sensor type: " ++ t) := by
  simp only [knownSensorTypes, List.mem_cons, List.not_mem_nil, or_false, not_or] at ht
  obtain ⟨h1, h2, h3, h4, h5, h6, h7, h8⟩ := ht
  simp [createSensor, h1, h2, h3, h4, h5, h6, h7, h8]

theorem createSensor_known (r : InitRand) (sid rid t : String)
    (ht : t ∈ knownSensorTypes) :
    ∃ c : CreatedSensor, createSensor r t sid rid = .ok c
      ∧ c.sensor_id = sid ∧ c.room_id = rid ∧ c.state.kindTag = t := by
  simp only [knownSensorTypes, List.mem_cons, List.not_mem_nil, or_false] at ht
  rcases ht with rfl | rfl | rfl | rfl | rfl | rfl | rfl | rfl
  all_goals exact ⟨_, rfl, rfl, rfl, rfl⟩

theorem roundTo_clamp_range {n : ℕ} {a b x : ℚ} (hab : a ≤ b)
    (ha : roundTo n a = a) (hb : roundTo n b = b) :
    a ≤ roundTo n (max a (min b x)) ∧ roundTo n (max a (min b x)) ≤ b := by
  obtain ⟨h1, h2⟩ := clamp_mem_Icc (x := x) hab
  constructor
  · have h3 := roundTo_mono (n := n) h1
    rwa [ha] at h3
  · have h4 := roundTo_mono (n := n) h2
    rwa [hb] at h4

theorem roundTo_2_18 : roundTo 2 (18 : ℚ) = 18 := by exact_mod_cast roundTo_natCast 2 18
theorem roundTo_2_28 : roundTo 2 (28 : ℚ) = 28 := by exact_mod_cast roundTo_natCast 2 28
theorem roundTo_2_30 : roundTo 2 (30 : ℚ) = 30 := by exact_mod_cast roundTo_natCast 2 30
theorem roundTo_2_70 : roundTo 2 (70 : ℚ) = 70 := by exact_mod_cast roundTo_natCast 2 70
theorem roundTo_2_400 : roundTo 2 (400 : ℚ) = 400 := by exact_mod_cast roundTo_natCast 2 400
theorem roundTo_2_2000 : roundTo 2 (2000 : ℚ) = 2000 := by
  exact_mod_cast roundTo_natCast 2 2000
theorem roundTo_2_0 : roundTo 2 (0 : ℚ) = 0 := by exact_mod_cast roundTo_natCast 2 0
theorem roundTo_2_100 : roundTo 2 (100 : ℚ) = 100 := by exact_mod_cast roundTo_natCast 2 100
theorem roundTo_2_50 : roundTo 2 (50 : ℚ) = 50 := by exact_mod_cast roundTo_natCast 2 50
theorem roundTo_2_300 : roundTo 2 (300 : ℚ) = 300 := by exact_mod_cast roundTo_natCast 2 300
theorem roundTo_2_600 : roundTo 2 (600 : ℚ) = 600 := by exact_mod_cast roundTo_natCast 2 600

theorem temperature_read_range (s : TemperatureSensor) (r : TempRand) :
    18 ≤ (s.read r).1 ∧ (s.read r).1 ≤ 28 :=
  roundTo_clamp_range (by norm_num) roundTo_2_18 roundTo_2_28

theorem humidity_read_range (s : HumiditySensor) (noise : ℚ) :
    30 ≤ (s.read noise).1 ∧ (s.read noise).1 ≤ 70 :=
  roundTo_clamp_range (by norm_num) roundTo_2_30 roundTo_2_70

theorem co2_read_range (s : CO2Sensor) (noise : ℚ) :
    400 ≤ (s.read noise).1 ∧ (s.read noise).1 ≤ 2000 :=
  roundTo_clamp_range (by norm_num) roundTo_2_400 roundTo_2_2000

theorem air_quality_read_range (s : AirQualitySensor) (noise : ℚ) :
    0 ≤ (s.read noise).1 ∧ (s.read noise).1 ≤ 100 :=
  roundTo_clamp_range (by norm_num) roundTo_2_0 roundTo_2_100

theorem occupancy_read_range (s : OccupancySensor) (change : ℤ)
    (h : 0 ≤ s.max_occupancy) :
    0 ≤ (s.read change).1 ∧ (s.read change).1 ≤ (s.max_occupancy : ℚ) := by
  unfold OccupancySensor.read
  constructor
  · show (0 : ℚ) ≤ ((max 0 (min s.max_occupancy (s.current_count + change)) : ℤ) : ℚ)
    exact_mod_cast le_max_left 0 (min s.max_occupancy (s.current_count + change))
  · show ((max 0 (min s.max_occupancy (s.current_count + change)) : ℤ) : ℚ) ≤
      (s.max_occupancy : ℚ)
    exact_mod_cast max_le h (min_le_left s.max_occupancy (s.current_count + change))

theorem light_read_range (s : LightSensor) (r : LightRand) (h : r.Valid) :
    ((LightSensor.read s r).2.is_on = true →
      300 ≤ (LightSensor.read s r).1 ∧ (LightSensor.read s r).1 ≤ 600)
    ∧ ((LightSensor.read s r).2.is_on = false →
      0 ≤ (LightSensor.read s r).1 ∧ (LightSensor.read s r).1 ≤ 50) := by
  obtain ⟨-, -, hon1, hon2, hoff1, hoff2⟩ := h
  unfold LightSensor.read
  by_cases hb : (if r.toggleDraw < 2 / 100 then !s.is_on else s.is_on) = true
  · simp only [hb, if_true]
    refine ⟨fun _ => ⟨?_, ?_⟩, fun hc => by simp at hc⟩
    · exact (roundTo_fixed roundTo_2_300).1 hon1
    · exact (roundTo_fixed roundTo_2_600).2 hon2
  · simp only [Bool.not_eq_true] at hb
    simp only [hb, if_false]
    refine ⟨fun hc => by simp at hc, fun _ => ⟨?_, ?_⟩⟩
    · exact (roundTo_fixed roundTo_2_0).1 hoff1
    · exact (roundTo_fixed roundTo_2_50).2 hoff2

/-- C1: for every sensor variant with a documented clamp range and any
sequence of `read()` calls of any length from any initial state, every
returned value lies in the variant's range — Temperature in [18,28],
Humidity in [30,70], CO2 in [400,2000], AirQuality in [0,100], Occupancy
in [0,max_occupancy], Motion in {0,1}, and Light in [0,50] while off and
[300,600] while on. -/
theorem sensor_read_clamp_ranges :
    (∀ (s : TemperatureSensor) (rs : List TempRand),
        ∀ v ∈ readTrace TemperatureSensor.read s rs, 18 ≤ v ∧ v ≤ 28)
  ∧ (∀ (s : HumiditySensor) (rs : List ℚ),
        ∀ v ∈ readTrace HumiditySensor.read s rs, 30 ≤ v ∧ v ≤ 70)
  ∧ (∀ (s : CO2Sensor) (rs : List ℚ),
        ∀ v ∈ readTrace CO2Sensor.read s rs, 400 ≤ v ∧ v ≤ 2000)
  ∧ (∀ (s : AirQualitySensor) (rs : List ℚ),
        ∀ v ∈ readTrace AirQualitySensor.read s rs, 0 ≤ v ∧ v ≤ 100)
  ∧ (∀ (s : OccupancySensor) (rs : List ℤ), 0 ≤ s.max_occupancy →
        ∀ v ∈ readTrace OccupancySensor.read s rs,
          0 ≤ v ∧ v ≤ (s.max_occupancy : ℚ))
  ∧ (∀ (s : MotionSensor) (rs : List ℚ),
        ∀ v ∈ readTrace MotionSensor.read s rs, v = 0 ∨ v = 1)
  ∧ (∀ (s : LightSensor) (rs : List LightRand), (∀ r ∈ rs, r.Valid) →
        ∀ v ∈ readTrace LightSensor.read s rs,
          (0 ≤ v ∧ v ≤ 50) ∨ (300 ≤ v ∧ v ≤ 600))
  ∧ (∀ (s : LightSensor) (r : LightRand), r.Valid →
        ((LightSensor.read s r).2.is_on = true →
          300 ≤ (LightSensor.read s r).1 ∧ (LightSensor.read s r).1 ≤ 600)
        ∧ ((LightSensor.read s r).2.is_on = false →
          0 ≤ (LightSensor.read s r).1 ∧ (LightSensor.read s r).1 ≤ 50)) := by
  refine ⟨?_, ?_, ?_, ?_, ?_, ?_, ?_, light_read_range⟩
  · intro s rs
    exact readTrace_sound _ (fun _ => True) (fun _ => True) _
      (fun s r _ _ => temperature_read_range s r) (fun _ _ _ _ => trivial)
      s rs trivial (fun _ _ => trivial)
  · intro s rs
    exact readTrace_sound _ (fun _ => True) (fun _ => True) _
      (fun s r _ _ => humidity_read_range s r) (fun _ _ _ _ => trivial)
      s rs trivial (fun _ _ => trivial)
  · intro s rs
    exact readTrace_sound _ (fun _ => True) (fun _ => True) _
      (fun s r _ _ => co2_read_range s r) (fun _ _ _ _ => trivial)
      s rs trivial (fun _ _ => trivial)
  · intro s rs
    exact readTrace_sound _ (fun _ => True) (fun _ => True) _
      (fun s r _ _ => air_quality_read_range s r) (fun _ _ _ _ => trivial)
      s rs trivial (fun _ _ => trivial)
  · intro s rs hM
    exact readTrace_sound _
      (fun t => t.max_occupancy = s.max_occupancy ∧ 0 ≤ t.max_occupancy)
      (fun _ => True) _
      (fun t c ht _ => ht.1 ▸ occupancy_read_range t c ht.2)
      (fun t c ht _ => ht) s rs ⟨rfl, hM⟩ (fun _ _ => trivial)
  · intro s rs
    refine readTrace_sound _ (fun _ => True) (fun _ => True) _
      (fun t d _ _ => ?_) (fun _ _ _ _ => trivial) s rs trivial (fun _ _ => trivial)
    unfold MotionSensor.read
    by_cases hd : d < 1 / 10
    · simp only [if_pos hd]
      cases t.motion_detected <;> simp
    · simp only [if_neg hd]
      cases t.motion_detected <;> simp
  · intro s rs hv
    refine readTrace_sound _ (fun _ => True) LightRand.Valid _
      (fun t d _ hd => ?_) (fun _ _ _ _ => trivial) s rs trivial hv
    have h := light_read_range t d hd
    by_cases hb : (LightSensor.read t d).2.is_on = true
    · exact Or.inr (h.1 hb)
    · simp only [Bool.not_eq_true] at hb; exact Or.inl (h.2 hb)

/-- Witness for `sensor_read_clamp_ranges` at concrete sensors, draws and
call sequences. -/
theorem sensor_read_clamp_ranges_witness :
    ((0 : ℤ) ≤ (15 : ℤ)
      ∧ List.Forall (fun v => 0 ≤ v ∧ v ≤ ((15 : ℤ) : ℚ))
          (readTrace OccupancySensor.read ⟨15, 3⟩ [1, -1, 0]))
  ∧ ((∀ r ∈ [LightRand.mk (1 / 2) 400 10], r.Valid)
      ∧ List.Forall (fun v => (0 ≤ v ∧ v ≤ 50) ∨ (300 ≤ v ∧ v ≤ 600))
          (readTrace LightSensor.read ⟨true, 500⟩ [⟨1 / 2, 400, 10⟩]))
  ∧ (LightRand.Valid ⟨1 / 2, 400, 10⟩
      ∧ (LightSensor.read ⟨true, 500⟩ ⟨1 / 2, 400, 10⟩).2.is_on = true
      ∧ 300 ≤ (LightSensor.read ⟨true, 500⟩ ⟨1 / 2, 400, 10⟩).1
      ∧ (LightSensor.read ⟨true, 500⟩ ⟨1 / 2, 400, 10⟩).1 ≤ 600)
  ∧ List.Forall (fun v => 18 ≤ v ∧ v ≤ 28)
      (readTrace TemperatureSensor.read ⟨21, 21, 0⟩ [⟨1 / 20, 1 / 2, 0⟩]) := by
  have hval : LightRand.Valid ⟨1 / 2, 400, 10⟩ := by
    unfold LightRand.Valid; norm_num
  have hon : (LightSensor.read ⟨true, 500⟩ ⟨1 / 2, 400, 10⟩).2.is_on = true := by
    norm_num [LightSensor.read]
  refine ⟨⟨by norm_num, ?_⟩, ⟨?_, ?_⟩, ⟨hval, hon, ?_⟩, ?_⟩
  · rw [List.forall_iff_forall_mem]
    exact sensor_read_clamp_ranges.2.2.2.2.1 ⟨15, 3⟩ [1, -1, 0] (by norm_num)
  · intro r hr
    simp only [List.mem_singleton] at hr
    exact hr ▸ hval
  · rw [List.forall_iff_forall_mem]
    refine sensor_read_clamp_ranges.2.2.2.2.2.2.1 ⟨true, 500⟩ [⟨1 / 2, 400, 10⟩] ?_
    intro r hr
    simp only [List.mem_singleton] at hr
    exact hr ▸ hval
  · exact (sensor_read_clamp_ranges.2.2.2.2.2.2.2 ⟨true, 500⟩ ⟨1 / 2, 400, 10⟩ hval).1 hon
  · rw [List.forall_iff_forall_mem]
    exact sensor_read_clamp_ranges.1 ⟨21, 21, 0⟩ [⟨1 / 20, 1 / 2, 0⟩]

/-- C2 counterexample: `ModbusSimulator.update_loop` stores
`int(value * 100)` — truncation, not `round(value * 100)`.  The energy
sensor with cumulative total 1.23178 kWh and rate 0.005 (both inside their
construction ranges) returns `v = 1.23678`; the stored register is
`int(123.678) = 123`, while `round(123.678) = 124`, and reading back
`123 / 100 = 1.23` misses `v` by 0.00678 > 0.005. -/
theorem register_scale_is_trunc_not_round :
    ((1 : ℚ) / 1000 ≤ 5 / 1000 ∧ (5 : ℚ) / 1000 ≤ 5 / 1000
      ∧ (0 : ℚ) ≤ 123178 / 100000 ∧ (123178 : ℚ) / 100000 ≤ 5)
    ∧ (EnergySensor.read ⟨123178 / 100000, 5 / 1000⟩).1 = 123678 / 100000
    ∧ modbusScale (123678 / 100000) = 123
    ∧ round ((123678 : ℚ) / 100000 * 100) = 124
    ∧ modbusScale (123678 / 100000) ≠ round ((123678 : ℚ) / 100000 * 100)
    ∧ ¬ (|(modbusScale (123678 / 100000) : ℚ) / 100 - 123678 / 100000| ≤ 5 / 1000) := by
  have h1 : modbusScale ((123678 : ℚ) / 100000) = 123 := by
    rw [modbusScale, pyInt]; norm_num
  have h2 : round ((123678 : ℚ) / 100000 * 100) = 124 := by
    rw [round_eq]; norm_num
  refine ⟨⟨by norm_num, le_refl _, by norm_num, by norm_num⟩, ?_, h1, h2, ?_, ?_⟩
  · show roundTo 5 (123178 / 100000 + 5 / 1000) = 123678 / 100000
    rw [roundTo, round_eq]; norm_num
  · rw [h1, h2]; norm_num
  · rw [h1, abs_le]; norm_num

/-- C2 amended: the register integer stored for a nonnegative sensor value
`v` is the truncation `⌊v * 100⌋`, so reading it back and dividing by 100
recovers `v` from below within 0.01 (not 0.005) absolute error. -/
theorem register_scale_floor_roundtrip :
    ∀ v : ℚ, 0 ≤ v →
      modbusScale v = ⌊v * 100⌋
      ∧ v - 1 / 100 < (modbusScale v : ℚ) / 100
      ∧ (modbusScale v : ℚ) / 100 ≤ v := by
  intro v hv
  have hnn : (0 : ℚ) ≤ v * 100 := by nlinarith
  rw [modbusScale, pyInt_of_nonneg hnn]
  have h1 := Int.lt_floor_add_one (v * 100)
  have h2 := Int.floor_le (v * 100)
  exact ⟨rfl, by linarith, by linarith⟩

/-- Witness for `register_scale_floor_roundtrip` at `v = 1.23678`. -/
theorem register_scale_floor_roundtrip_witness :
    (0 : ℚ) ≤ 123678 / 100000
    ∧ modbusScale (123678 / 100000) = ⌊(123678 : ℚ) / 100000 * 100⌋
    ∧ (123678 : ℚ) / 100000 - 1 / 100 < (modbusScale (123678 / 100000) : ℚ) / 100
    ∧ (modbusScale (123678 / 100000) : ℚ) / 100 ≤ 123678 / 100000 := by
  have h0 : (0 : ℚ) ≤ 123678 / 100000 := by norm_num
  obtain ⟨ha, hb, hc⟩ := register_scale_floor_roundtrip (123678 / 100000) h0
  exact ⟨h0, ha, hb, hc⟩

/-- C6 counterexample: the light sensor — a Modbus-bound variant — returns
500.0 lux from its documented on-range [300, 600]; the stored register
encoding `int(500 * 100) = 50000` does not fit the signed 16-bit range
[-32768, 32767]. -/
theorem scaled_value_not_int16_counterexample :
    LightRand.Valid ⟨1 / 2, 500, 0⟩
    ∧ (LightSensor.read ⟨true, 500⟩ ⟨1 / 2, 500, 0⟩).1 = 500
    ∧ ((300 : ℚ) ≤ 500 ∧ (500 : ℚ) ≤ 600)
    ∧ modbusScale 500 = 50000
    ∧ ¬ (-32768 ≤ modbusScale 500 ∧ modbusScale 500 ≤ 32767) := by
  have h1 : modbusScale (500 : ℚ) = 50000 := by rw [modbusScale, pyInt]; norm_num
  refine ⟨by unfold LightRand.Valid; norm_num, ?_, ⟨by norm_num, by norm_num⟩, h1, ?_⟩
  · show roundTo 2 (if (if (1 : ℚ) / 2 < 2 / 100 then !true else true) = true
      then (500 : ℚ) else 0) = 500
    rw [if_neg (by norm_num : ¬ ((1 : ℚ) / 2 < 2 / 100))]
    rw [if_pos rfl, roundTo, round_eq]; norm_num
  · rw [h1]; omega

/-- C6 amended: the fixed-point register encoding `int(v * 100)` fits the
signed 16-bit range for every value of the variants whose documented range
is contained in [0, 100] or below — temperature [18,28], humidity [30,70],
air quality [0,100], motion {0,1}, occupancy [0,15] — but not in general:
light values (up to 600 when on) scale to 60000 and CO2 values (up to
2000) scale to 200000, outside [-32768, 32767]. -/
theorem scaled_value_register_width_amended :
    (∀ v : ℚ,
        ((18 ≤ v ∧ v ≤ 28) ∨ (30 ≤ v ∧ v ≤ 70) ∨ (0 ≤ v ∧ v ≤ 100) ∨
          (0 ≤ v ∧ v ≤ 15)) →
        -32768 ≤ modbusScale v ∧ modbusScale v ≤ 32767)
    ∧ modbusScale 600 = 60000 ∧ modbusScale 2000 = 200000 := by
  refine ⟨?_, by rw [modbusScale, pyInt]; norm_num, by rw [modbusScale, pyInt]; norm_num⟩
  intro v hv
  have h0 : 0 ≤ v ∧ v ≤ 100 := by
    rcases hv with h | h | h | h <;> exact ⟨by linarith [h.1], by linarith [h.2]⟩
  have hnn : (0 : ℚ) ≤ v * 100 := by nlinarith [h0.1]
  rw [modbusScale, pyInt_of_nonneg hnn]
  constructor
  · have h3 := Int.floor_nonneg.mpr hnn
    omega
  · have hle : v * 100 ≤ (10000 : ℚ) := by nlinarith [h0.2]
    have h2 : ⌊v * 100⌋ ≤ ⌊(10000 : ℚ)⌋ := Int.floor_le_floor hle
    rw [show ((10000 : ℚ)) = ((10000 : ℤ) : ℚ) by norm_num, Int.floor_intCast] at h2
    omega

/-- Witness for `scaled_value_register_width_amended` at `v = 28`. -/
theorem scaled_value_register_width_amended_witness :
    ((18 : ℚ) ≤ 28 ∧ (28 : ℚ) ≤ 28)
    ∧ -32768 ≤ modbusScale 28 ∧ modbusScale 28 ≤ 32767 := by
  have h := scaled_value_register_width_amended.1 28 (Or.inl ⟨by norm_num, le_refl _⟩)
  exact ⟨⟨by norm_num, le_refl _⟩, h.1, h.2⟩

/-- C7 counterexample: in `Kitchen.get_telemetry` the 2% start draw fires
even while an episode is active — with the kitchen mid-episode (timer 100)
and a firing draw (0.01 < 0.02) re-drawing duration 900, the code re-arms
the timer to 899.5, where start-only-when-idle dynamics would leave 99.5. -/
theorem kitchen_restart_counterexample :
    Kitchen.tick ⟨true, 100⟩ (1 / 100) 900 = ⟨true, 1799 / 2⟩
    ∧ Kitchen.tickOnlyWhenIdle ⟨true, 100⟩ (1 / 100) 900 = ⟨true, 199 / 2⟩
    ∧ Kitchen.tick ⟨true, 100⟩ (1 / 100) 900
        ≠ Kitchen.tickOnlyWhenIdle ⟨true, 100⟩ (1 / 100) 900 := by
  refine ⟨?_, ?_, ?_⟩ <;> norm_num [Kitchen.tick, Kitchen.tickOnlyWhenIdle]

/-- C7 amended: each `get_telemetry` call starts — or, if an episode is
already active, restarts with a fresh 300-900 s duration — a cooking
episode with 2% probability; otherwise, while active, the call decrements
the timer by the 0.5 logical step and reverts to idle exactly when the
timer reaches zero, and while idle it leaves the state unchanged. -/
theorem kitchen_cooking_cycle_amended :
    (∀ (s : KitchenState) (d : ℚ) (k : ℤ), d < 2 / 100 → 300 ≤ k →
        Kitchen.tick s d k = ⟨true, (k : ℚ) - 1 / 2⟩)
    ∧ (∀ (s : KitchenState) (d : ℚ) (k : ℤ), ¬ d < 2 / 100 →
        s.cooking_active = true → 1 / 2 < s.cooking_timer →
        Kitchen.tick s d k = ⟨true, s.cooking_timer - 1 / 2⟩)
    ∧ (∀ (s : KitchenState) (d : ℚ) (k : ℤ), ¬ d < 2 / 100 →
        s.cooking_active = true → s.cooking_timer ≤ 1 / 2 →
        Kitchen.tick s d k = ⟨false, s.cooking_timer - 1 / 2⟩)
    ∧ (∀ (s : KitchenState) (d : ℚ) (k : ℤ), ¬ d < 2 / 100 →
        s.cooking_active = false → Kitchen.tick s d k = s) := by
  refine ⟨?_, ?_, ?_, ?_⟩
  · intro s d k hd hk
    have hk2 : (300 : ℚ) ≤ (k : ℚ) := by exact_mod_cast hk
    unfold Kitchen.tick
    rw [if_pos hd]
    simp only
    rw [if_neg (by linarith : ¬ ((k : ℚ) - 1 / 2 ≤ 0))]
    simp
  · intro s d k hd ha ht
    unfold Kitchen.tick
    rw [if_neg hd]
    simp only [ha, if_true]
    rw [if_neg (by linarith : ¬ (s.cooking_timer - 1 / 2 ≤ 0))]
  · intro s d k hd ha ht
    unfold Kitchen.tick
    rw [if_neg hd]
    simp only [ha, if_true]
    rw [if_pos (by linarith : s.cooking_timer - 1 / 2 ≤ 0)]
  · intro s d k hd ha
    unfold Kitchen.tick
    rw [if_neg hd]
    simp only [ha, Bool.false_eq_true, if_false]

/-- Witness for `kitchen_cooking_cycle_amended` at concrete states and
draws. -/
theorem kitchen_cooking_cycle_amended_witness :
    ((1 : ℚ) / 100 < 2 / 100 ∧ (300 : ℤ) ≤ 300
      ∧ Kitchen.tick ⟨false, 0⟩ (1 / 100) 300 = ⟨true, (300 : ℚ) - 1 / 2⟩)
    ∧ (¬ (1 : ℚ) / 2 < 2 / 100 ∧ (1 : ℚ) / 2 < 80
      ∧ Kitchen.tick ⟨true, 80⟩ (1 / 2) 300 = ⟨true, (80 : ℚ) - 1 / 2⟩)
    ∧ (¬ (1 : ℚ) / 2 < 2 / 100 ∧ (1 : ℚ) / 2 ≤ 1 / 2
      ∧ Kitchen.tick ⟨true, 1 / 2⟩ (1 / 2) 300 = ⟨false, (1 : ℚ) / 2 - 1 / 2⟩)
    ∧ (¬ (1 : ℚ) / 2 < 2 / 100
      ∧ Kitchen.tick ⟨false, 0⟩ (1 / 2) 300 = ⟨false, 0⟩) := by
  have hd1 : (1 : ℚ) / 100 < 2 / 100 := by norm_num
  have hd2 : ¬ (1 : ℚ) / 2 < 2 / 100 := by norm_num
  refine ⟨⟨hd1, le_refl _, ?_⟩, ⟨hd2, by norm_num, ?_⟩, ⟨hd2, le_refl _, ?_⟩,
    ⟨hd2, ?_⟩⟩
  · exact_mod_cast kitchen_cooking_cycle_amended.1 ⟨false, 0⟩ (1 / 100) 300 hd1
      (le_refl 300)
  · exact kitchen_cooking_cycle_amended.2.1 ⟨true, 80⟩ (1 / 2) 300 hd2 rfl
      (by norm_num)
  · exact kitchen_cooking_cycle_amended.2.2.1 ⟨true, 1 / 2⟩ (1 / 2) 300 hd2 rfl
      (le_refl _)
  · exact kitchen_cooking_cycle_amended.2.2.2 ⟨false, 0⟩ (1 / 2) 300 hd2 rfl

theorem EnergySensor.iter_spec (s : EnergySensor) (n : ℕ) :
    (s.iter n).cumulative_kwh = s.cumulative_kwh + n * s.consumption_rate
    ∧ (s.iter n).consumption_rate = s.consumption_rate := by
  induction n with
  | zero => simp [EnergySensor.iter]
  | succ m ih =>
    simp only [EnergySensor.iter, EnergySensor.read, ih.1, ih.2]
    refine ⟨by push_cast; ring, trivial⟩

/-- C5: for every energy sensor whose per-instance consumption rate lies
in the construction range [0.001, 0.005], the value returned by each
successive `read()` call is at least the value returned by the previous
one — the cumulative output is monotonically non-decreasing. -/
theorem energy_output_monotone :
    ∀ (s : EnergySensor) (n : ℕ),
      1 / 1000 ≤ s.consumption_rate → s.consumption_rate ≤ 5 / 1000 →
      EnergySensor.output s n ≤ EnergySensor.output s (n + 1) := by
  intro s n h1 h2
  have hs1 := EnergySensor.iter_spec s n
  have hs2 := EnergySensor.iter_spec s (n + 1)
  unfold EnergySensor.output
  show roundTo 5 ((s.iter n).cumulative_kwh + (s.iter n).consumption_rate)
    ≤ roundTo 5 ((s.iter (n + 1)).cumulative_kwh + (s.iter (n + 1)).consumption_rate)
  rw [hs1.1, hs1.2, hs2.1, hs2.2]
  apply roundTo_mono
  have hn : (0 : ℚ) ≤ (n : ℚ) := Nat.cast_nonneg n
  have hr : (0 : ℚ) ≤ s.consumption_rate := by linarith
  push_cast
  nlinarith

/-- Witness for `energy_output_monotone` at a concrete sensor. -/
theorem energy_output_monotone_witness :
    ((1 : ℚ) / 1000 ≤ 1 / 500 ∧ (1 : ℚ) / 500 ≤ 5 / 1000)
    ∧ EnergySensor.output ⟨1, 1 / 500⟩ 0 ≤ EnergySensor.output ⟨1, 1 / 500⟩ 1 :=
  ⟨⟨by norm_num, by norm_num⟩,
    energy_output_monotone ⟨1, 1 / 500⟩ 0 (by norm_num) (by norm_num)⟩

/-- C3: a read request for an object id or register address that no
configuration binding covers returns the typed not-found response (the
address packed with the NaN marker), never a sensor value; the handler is
a total function, so it cannot raise or crash. -/
theorem unbound_address_read_returns_not_found :
    (∀ (σ : Type) (get_value : σ → ℚ × σ) (srv : BACnetServer σ) (object_id : ℕ),
        lookupKey srv.sensors object_id = none →
        (BACnetServer.handle_read_request get_value srv object_id).1
            = .notFound object_id
        ∧ ∀ (a : ℕ) (v : ℚ),
            (BACnetServer.handle_read_request get_value srv object_id).1
              ≠ .value a v)
  ∧ (∀ (σ : Type) (get_value : σ → ℚ × σ) (srv : ModbusServer σ) (register : ℕ),
        lookupKey srv.sensors register = none →
        (ModbusServer.handle_read_request get_value srv register).1
            = .notFound register
        ∧ ∀ (a : ℕ) (v : ℚ),
            (ModbusServer.handle_read_request get_value srv register).1
              ≠ .value a v) := by
  constructor
  · intro σ gv srv oid h
    unfold BACnetServer.handle_read_request
    rw [h]
    exact ⟨rfl, fun a v hc => by cases hc⟩
  · intro σ gv srv reg h
    unfold ModbusServer.handle_read_request
    rw [h]
    exact ⟨rfl, fun a v hc => by cases hc⟩

/-- Witness for `unbound_address_read_returns_not_found`: a table binding
only address 5 (resp. 40001), read at address 6 (resp. 40002). -/
theorem unbound_address_read_returns_not_found_witness :
    lookupKey (BACnetServer.mk (σ := MotionSensor) [(5, ⟨false⟩)]).sensors 6 = none
    ∧ (BACnetServer.handle_read_request (fun s => MotionSensor.read s (1 / 2))
        (BACnetServer.mk [(5, ⟨false⟩)]) 6).1 = .notFound 6
    ∧ lookupKey (ModbusServer.mk (σ := MotionSensor) [(40001, ⟨false⟩)]).sensors
        40002 = none
    ∧ (ModbusServer.handle_read_request (fun s => MotionSensor.read s (1 / 2))
        (ModbusServer.mk [(40001, ⟨false⟩)]) 40002).1 = .notFound 40002 := by
  obtain ⟨hb, -⟩ := unbound_address_read_returns_not_found.1 MotionSensor
    (fun s => MotionSensor.read s (1 / 2)) ⟨[(5, ⟨false⟩)]⟩ 6 rfl
  obtain ⟨hm, -⟩ := unbound_address_read_returns_not_found.2 MotionSensor
    (fun s => MotionSensor.read s (1 / 2)) ⟨[(40001, ⟨false⟩)]⟩ 40002 rfl
  exact ⟨rfl, hb, rfl, hm⟩

/-- C8: the sensor factory returns a sensor of the variant matching each
of the eight known type tags, and raises the descriptive
`Unknown sensor type` error on any other tag; inside the startup loop
that error propagates and aborts configuration loading. -/
theorem create_sensor_type_dispatch :
    (∀ (r : InitRand) (t sid rid : String), t ∉ knownSensorTypes →
        createSensor r t sid rid = .error ("Unknown sensor type: " ++ t))
  ∧ (∀ (r : InitRand) (sid rid t : String), t ∈ knownSensorTypes →
        ∃ c : CreatedSensor, createSensor r t sid rid = .ok c
          ∧ c.sensor_id = sid ∧ c.room_id = rid ∧ c.state.kindTag = t)
  ∧ (∀ (roomMap : List (String × String)) (r : InitRand) (st : Coordinator)
        (cfgs : List SensorConfig) (cfg : SensorConfig),
        cfg ∈ cfgs → cfg.sensor_type ∉ knownSensorTypes →
        ∃ e, loadSensors roomMap r st cfgs = .error e) := by
  refine ⟨createSensor_unknown, createSensor_known, ?_⟩
  intro roomMap r st cfgs
  induction cfgs generalizing st with
  | nil => intro cfg h; simp at h
  | cons c rest ih =>
    intro cfg hmem hbad
    rcases List.mem_cons.mp hmem with rfl | hmem2
    · have herr := createSensor_unknown r cfg.sensor_type cfg.id
        ((lookupKey roomMap cfg.id).getD "00") hbad
      refine ⟨"Unknown sensor type: " ++ cfg.sensor_type, ?_⟩
      simp only [loadSensors, processSensorConfig]
      rw [herr]
    · cases hp : processSensorConfig roomMap r st c with
      | error e =>
        refine ⟨e, ?_⟩
        simp only [loadSensors]
        rw [hp]
      | ok st2 =>
        obtain ⟨e, he⟩ := ih st2 cfg hmem2 hbad
        refine ⟨e, ?_⟩
        simp only [loadSensors]
        rw [hp]
        exact he

/-- Witness for `create_sensor_type_dispatch` at concrete tags and a
concrete one-entry configuration. -/
theorem create_sensor_type_dispatch_witness :
    ("fire" ∉ knownSensorTypes
      ∧ createSensor ⟨0, 50, true, 1, 1 / 500, 3⟩ "fire" "s1" "01"
          = .error ("Unknown sensor type: " ++ "fire"))
    ∧ ("co2" ∈ knownSensorTypes
      ∧ ∃ c : CreatedSensor,
          createSensor ⟨0, 50, true, 1, 1 / 500, 3⟩ "co2" "s2" "02" = .ok c
          ∧ c.sensor_id = "s2" ∧ c.room_id = "02" ∧ c.state.kindTag = "co2")
    ∧ (SensorConfig.mk "s3" "plasma" "bacnet" 7 0
        ∈ [SensorConfig.mk "s3" "plasma" "bacnet" 7 0]
      ∧ (SensorConfig.mk "s3" "plasma" "bacnet" 7 0).sensor_type ∉ knownSensorTypes
      ∧ ∃ e, loadSensors [] ⟨0, 50, true, 1, 1 / 500, 3⟩ ⟨[], [], []⟩
          [SensorConfig.mk "s3" "plasma" "bacnet" 7 0] = .error e) := by
  have hf : "fire" ∉ knownSensorTypes := by decide
  have hp : "plasma" ∉ knownSensorTypes := by decide
  have hc : "co2" ∈ knownSensorTypes := by decide
  refine ⟨⟨hf, ?_⟩, ⟨hc, ?_⟩, ⟨by decide, hp, ?_⟩⟩
  · exact create_sensor_type_dispatch.1 ⟨0, 50, true, 1, 1 / 500, 3⟩ "fire" "s1" "01" hf
  · exact create_sensor_type_dispatch.2.1 ⟨0, 50, true, 1, 1 / 500, 3⟩ "s2" "02" "co2" hc
  · exact create_sensor_type_dispatch.2.2 [] ⟨0, 50, true, 1, 1 / 500, 3⟩ ⟨[], [], []⟩
      [SensorConfig.mk "s3" "plasma" "bacnet" 7 0]
      (SensorConfig.mk "s3" "plasma" "bacnet" 7 0) (by decide) hp

/-- C10: a configured sensor whose id appears in no room's sensor list
does not fail startup — it is constructed with its room assignment
silently defaulting to the placeholder id "00" and is still bound to its
protocol address. -/
theorem unassigned_sensor_defaults_to_room_00 :
    ∀ (rooms : List Room) (r : InitRand) (st : Coordinator) (cfg : SensorConfig),
      (∀ rm ∈ rooms, cfg.id ∉ rm.sensors) →
      cfg.sensor_type ∈ knownSensorTypes →
      ∃ c : CreatedSensor,
        c.room_id = "00" ∧ c.sensor_id = cfg.id ∧ c.state.kindTag = cfg.sensor_type
        ∧ (cfg.protocol = "bacnet" →
            processSensorConfig (sensorToRoom rooms) r st cfg =
              .ok { sensors := st.sensors ++ [(cfg.id, c)],
                    bacnet_sensors := st.bacnet_sensors ++ [(cfg.object_id, c)],
                    modbus_sensors := st.modbus_sensors })
        ∧ (cfg.protocol = "modbus" →
            processSensorConfig (sensorToRoom rooms) r st cfg =
              .ok { sensors := st.sensors ++ [(cfg.id, c)],
                    bacnet_sensors := st.bacnet_sensors,
                    modbus_sensors := st.modbus_sensors ++ [(cfg.register, c)] }) := by
  intro rooms r st cfg hnm ht
  have hnone : lookupKey (sensorToRoom rooms) cfg.id = none := by
    apply lookupKey_eq_none
    intro p hp hcontra
    obtain ⟨rm, hrm, hmem⟩ := sensorToRoom_key_mem hp
    exact hnm rm hrm (hcontra ▸ hmem)
  obtain ⟨c, hok, hsid, hrid, htag⟩ :=
    createSensor_known r cfg.id "00" cfg.sensor_type ht
  refine ⟨c, hrid, hsid, htag, ?_, ?_⟩
  · intro hb
    unfold processSensorConfig
    rw [hnone]
    simp only [Option.getD_none]
    rw [hok, hb]
    simp
  · intro hm
    unfold processSensorConfig
    rw [hnone]
    simp only [Option.getD_none]
    rw [hok, hm]
    simp

/-- Witness for `unassigned_sensor_defaults_to_room_00`: a sensor file
entry `x9` absent from the only room's sensor list. -/
theorem unassigned_sensor_defaults_to_room_00_witness :
    (∀ rm ∈ [Room.mk "01" ["t1"]],
        (SensorConfig.mk "x9" "temperature" "bacnet" 5 0).id ∉ rm.sensors)
    ∧ (SensorConfig.mk "x9" "temperature" "bacnet" 5 0).sensor_type
        ∈ knownSensorTypes
    ∧ ∃ c : CreatedSensor,
        c.room_id = "00"
        ∧ c.sensor_id = "x9"
        ∧ c.state.kindTag = "temperature"
        ∧ processSensorConfig (sensorToRoom [Room.mk "01" ["t1"]])
            ⟨0, 50, true, 1, 1 / 500, 3⟩ ⟨[], [], []⟩
            (SensorConfig.mk "x9" "temperature" "bacnet" 5 0) =
          .ok { sensors := [("x9", c)], bacnet_sensors := [(5, c)],
                modbus_sensors := [] } := by
  have hnm : ∀ rm ∈ [Room.mk "01" ["t1"]],
      (SensorConfig.mk "x9" "temperature" "bacnet" 5 0).id ∉ rm.sensors := by decide
  have ht : (SensorConfig.mk "x9" "temperature" "bacnet" 5 0).sensor_type
      ∈ knownSensorTypes := by decide
  obtain ⟨c, h1, h2, h3, h4, -⟩ := unassigned_sensor_defaults_to_room_00
    [Room.mk "01" ["t1"]] ⟨0, 50, true, 1, 1 / 500, 3⟩ ⟨[], [], []⟩
    (SensorConfig.mk "x9" "temperature" "bacnet" 5 0) hnm ht
  exact ⟨hnm, ht, c, h1, h2, h3, by simpa using h4 rfl⟩

theorem pyMod_of_Ico {t m : ℚ} (h0 : 0 ≤ t) (hm : 0 < m) (h1 : t < m) :
    pyMod t m = t := by
  unfold pyMod
  have hf : ⌊t / m⌋ = 0 := by
    rw [Int.floor_eq_zero_iff]
    exact Set.mem_Ico.mpr ⟨div_nonneg h0 hm.le, (div_lt_one hm).mpr h1⟩
  rw [hf]
  push_cast
  ring

theorem pyMod_self {m : ℚ} (hm : 0 < m) : pyMod m m = 0 := by
  unfold pyMod
  rw [div_self (ne_of_gt hm), Int.floor_one]
  push_cast
  ring

theorem conference_tick_timer (s : ConfState) :
    (ConferenceRoom.tick s).meeting_timer =
      if s.meeting_timer + 1 / 2 > 3600 then 0 else s.meeting_timer + 1 / 2 := rfl

theorem conference_tick_active (s : ConfState) :
    ((ConferenceRoom.tick s).meeting_active = true)
      ↔ pyMod (ConferenceRoom.tick s).meeting_timer 3600 < 900 := by
  unfold ConferenceRoom.tick
  simp only [decide_eq_true_eq]

theorem conference_timer_closed_form (n : ℕ) :
    ((ConferenceRoom.tick)^[n] ConferenceRoom.init).meeting_timer
      = ((n % 7201 : ℕ) : ℚ) / 2 := by
  induction n with
  | zero => simp [ConferenceRoom.init]
  | succ m ih =>
    rw [Function.iterate_succ_apply', conference_tick_timer, ih]
    by_cases hk : m % 7201 = 7200
    · rw [if_pos (by rw [hk]; norm_num)]
      have h2 : (m + 1) % 7201 = 0 := by omega
      rw [h2]
      norm_num
    · have hlt : m % 7201 < 7200 := by omega
      rw [if_neg ?hc]
      case hc =>
        have hle : ((m % 7201 : ℕ) : ℚ) ≤ 7199 := by exact_mod_cast Nat.le_of_lt_succ hlt
        linarith
      have h2 : (m + 1) % 7201 = m % 7201 + 1 := by omega
      rw [h2]
      push_cast
      ring

/-- C4: the ConferenceRoom meeting regime is deterministic in the logical
timer advanced by 0.5 per `get_telemetry` call — after any number of
calls, the timer equals `((n mod 7201) / 2)` seconds (the repeating
3600-second cycle, whose reset also passes through the value 3600), and
`meeting_active` holds exactly when `timer mod 3600 < 900`, i.e. during
the first 900 seconds of each cycle. -/
theorem conference_meeting_cycle :
    ∀ n : ℕ,
      ((ConferenceRoom.tick)^[n + 1] ConferenceRoom.init).meeting_timer
          = (((n + 1) % 7201 : ℕ) : ℚ) / 2
      ∧ (((ConferenceRoom.tick)^[n + 1] ConferenceRoom.init).meeting_active = true
          ↔ pyMod ((ConferenceRoom.tick)^[n + 1] ConferenceRoom.init).meeting_timer
              3600 < 900)
      ∧ (((ConferenceRoom.tick)^[n + 1] ConferenceRoom.init).meeting_active = true
          ↔ (((ConferenceRoom.tick)^[n + 1] ConferenceRoom.init).meeting_timer < 900
            ∨ ((ConferenceRoom.tick)^[n + 1] ConferenceRoom.init).meeting_timer
                = 3600)) := by
  intro n
  have hcf := conference_timer_closed_form (n + 1)
  have hact : (((ConferenceRoom.tick)^[n + 1] ConferenceRoom.init).meeting_active = true)
      ↔ pyMod ((ConferenceRoom.tick)^[n + 1] ConferenceRoom.init).meeting_timer
          3600 < 900 := by
    rw [Function.iterate_succ_apply']
    exact conference_tick_active _
  refine ⟨hcf, hact, hact.trans ?_⟩
  set t := ((ConferenceRoom.tick)^[n + 1] ConferenceRoom.init).meeting_timer with ht
  have hk : (n + 1) % 7201 ≤ 7200 := by omega
  by_cases hc : (n + 1) % 7201 = 7200
  · have ht1 : t = 3600 := by rw [hcf, hc]; norm_num
    rw [ht1, pyMod_self (by norm_num : (0 : ℚ) < 3600)]
    constructor
    · intro _; exact Or.inr rfl
    · intro _; norm_num
  · have hlt : (n + 1) % 7201 < 7200 := by omega
    have h0 : 0 ≤ t := by
      rw [hcf]
      positivity
    have h1 : t < 3600 := by
      rw [hcf]
      have : (((n + 1) % 7201 : ℕ) : ℚ) ≤ 7199 := by
        exact_mod_cast Nat.le_of_lt_succ hlt
      linarith
    rw [pyMod_of_Ico h0 (by norm_num) h1]
    constructor
    · exact fun h => Or.inl h
    · rintro (h | h)
      · exact h
      · exact absurd h (by linarith)

/-- C9: on every `get_telemetry()` call from any reachable profile state,
the returned `air_quality_index` is an integer in [0, 100]: the
CO2-derived rooms (ConferenceRoom, OpenOffice, Kitchen) use
`max lo (100 - int(co2 / d))` with floors 50/60/40, and the remaining
rooms sample it in fixed sub-ranges of [0, 100]. -/
theorem air_quality_index_in_range :
    (∀ r : ServerRoomRand, 90 ≤ r.aqi → r.aqi ≤ 100 →
        0 ≤ (ServerRoom.get_telemetry r).air_quality_index
        ∧ (ServerRoom.get_telemetry r).air_quality_index ≤ 100)
  ∧ (∀ (s : ConfState) (r : ConfRand), 0 ≤ r.u_co2 → r.u_co2 ≤ 1 →
        0 ≤ (ConferenceRoom.get_telemetry s r).1.air_quality_index
        ∧ (ConferenceRoom.get_telemetry s r).1.air_quality_index ≤ 100)
  ∧ (∀ r : StorageRand, 85 ≤ r.aqi → r.aqi ≤ 95 →
        0 ≤ (StorageCloset.get_telemetry r).air_quality_index
        ∧ (StorageCloset.get_telemetry r).air_quality_index ≤ 100)
  ∧ (∀ (s : OpenOfficeState) (hour : ℕ) (r : OpenOfficeRand),
        0 ≤ r.u_co2 → r.u_co2 ≤ 1 →
        0 ≤ (OpenOffice.get_telemetry s hour r).1.air_quality_index
        ∧ (OpenOffice.get_telemetry s hour r).1.air_quality_index ≤ 100)
  ∧ (∀ (s : KitchenState) (r : KitchenRand), 0 ≤ r.u_co2 → r.u_co2 ≤ 1 →
        0 ≤ (Kitchen.get_telemetry s r).1.air_quality_index
        ∧ (Kitchen.get_telemetry s r).1.air_quality_index ≤ 100)
  ∧ (∀ r : LabRand, 30 ≤ r.aqi_poor → r.aqi_poor ≤ 50 →
        55 ≤ r.aqi_good → r.aqi_good ≤ 75 →
        0 ≤ (LabWorkshop.get_telemetry r).air_quality_index
        ∧ (LabWorkshop.get_telemetry r).air_quality_index ≤ 100)
  ∧ (∀ r : BreakRand, 75 ≤ r.aqi → r.aqi ≤ 90 →
        0 ≤ (BreakRoom.get_telemetry r).air_quality_index
        ∧ (BreakRoom.get_telemetry r).air_quality_index ≤ 100)
  ∧ (∀ (hour : ℕ) (r : ExecRand), 85 ≤ r.aqi → r.aqi ≤ 98 →
        0 ≤ (ExecutiveOffice.get_telemetry hour r).air_quality_index
        ∧ (ExecutiveOffice.get_telemetry hour r).air_quality_index ≤ 100) := by
  refine ⟨?_, ?_, ?_, ?_, ?_, ?_, ?_, ?_⟩
  · intro r h1 h2
    show 0 ≤ r.aqi ∧ r.aqi ≤ 100
    omega
  · intro s r h1 h2
    simp only [ConferenceRoom.get_telemetry]
    by_cases hm : (ConferenceRoom.tick s).meeting_active = true
    · rw [if_pos hm]
      exact aqi_formula_bounds (by norm_num) (by norm_num)
        (addNoise_nonneg (by norm_num) (by norm_num) (by norm_num) h1) (by norm_num)
    · rw [if_neg hm]
      exact aqi_formula_bounds (by norm_num) (by norm_num)
        (addNoise_nonneg (by norm_num) (by norm_num) (by norm_num) h1) (by norm_num)
  · intro r h1 h2
    show 0 ≤ r.aqi ∧ r.aqi ≤ 100
    omega
  · intro s hour r h1 h2
    unfold OpenOffice.get_telemetry
    split
    · exact aqi_formula_bounds (by norm_num) (by norm_num)
        (addNoise_nonneg (by norm_num) (by norm_num) (by norm_num) h1) (by norm_num)
    · exact aqi_formula_bounds (by norm_num) (by norm_num)
        (addNoise_nonneg (by norm_num) (by norm_num) (by norm_num) h1) (by norm_num)
  · intro s r h1 h2
    simp only [Kitchen.get_telemetry]
    by_cases hm : (Kitchen.tick s r.startDraw r.duration).cooking_active = true
    · rw [if_pos hm]
      exact aqi_formula_bounds (by norm_num) (by norm_num)
        (addNoise_nonneg (by norm_num) (by norm_num) (by norm_num) h1) (by norm_num)
    · rw [if_neg hm]
      exact aqi_formula_bounds (by norm_num) (by norm_num)
        (addNoise_nonneg (by norm_num) (by norm_num) (by norm_num) h1) (by norm_num)
  · intro r h1 h2 h3 h4
    show 0 ≤ (if r.poorDraw < 1 / 10 then r.aqi_poor else r.aqi_good)
      ∧ (if r.poorDraw < 1 / 10 then r.aqi_poor else r.aqi_good) ≤ 100
    split <;> omega
  · intro r h1 h2
    show 0 ≤ r.aqi ∧ r.aqi ≤ 100
    omega
  · intro hour r h1 h2
    show 0 ≤ r.aqi ∧ r.aqi ≤ 100
    omega

/-- Witness for `air_quality_index_in_range` at concrete draws, states and
hours. -/
theorem air_quality_index_in_range_witness :
    ((90 : ℤ) ≤ 95 ∧ (95 : ℤ) ≤ 100
      ∧ 0 ≤ (ServerRoom.get_telemetry ⟨0, 0, 0, 0, 95⟩).air_quality_index
      ∧ (ServerRoom.get_telemetry ⟨0, 0, 0, 0, 95⟩).air_quality_index ≤ 100)
    ∧ ((0 : ℚ) ≤ 1 / 2 ∧ (1 : ℚ) / 2 ≤ 1
      ∧ 0 ≤ (ConferenceRoom.get_telemetry ConferenceRoom.init
          ⟨0, 0, 1 / 2, 0, 0, 450, 8⟩).1.air_quality_index
      ∧ (ConferenceRoom.get_telemetry ConferenceRoom.init
          ⟨0, 0, 1 / 2, 0, 0, 450, 8⟩).1.air_quality_index ≤ 100)
    ∧ (0 ≤ (OpenOffice.get_telemetry ⟨0⟩ 12
          ⟨0, 0, 1 / 2, 0, 0, 0, 400, 6⟩).1.air_quality_index
      ∧ (OpenOffice.get_telemetry ⟨0⟩ 12
          ⟨0, 0, 1 / 2, 0, 0, 0, 400, 6⟩).1.air_quality_index ≤ 100)
    ∧ (0 ≤ (Kitchen.get_telemetry Kitchen.init
          ⟨1 / 2, 600, 0, 0, 1 / 2, 0, 0, 200, 1⟩).1.air_quality_index
      ∧ (Kitchen.get_telemetry Kitchen.init
          ⟨1 / 2, 600, 0, 0, 1 / 2, 0, 0, 200, 1⟩).1.air_quality_index ≤ 100)
    ∧ (0 ≤ (LabWorkshop.get_telemetry
          ⟨0, 0, 0, 0, 0, 1 / 2, 300, 2, 40, 60⟩).air_quality_index
      ∧ (LabWorkshop.get_telemetry
          ⟨0, 0, 0, 0, 0, 1 / 2, 300, 2, 40, 60⟩).air_quality_index ≤ 100)
    ∧ (0 ≤ (BreakRoom.get_telemetry ⟨1 / 2, 0, 0, 0, 0, 50, 2, 80⟩).air_quality_index
      ∧ (BreakRoom.get_telemetry ⟨1 / 2, 0, 0, 0, 0, 50, 2, 80⟩).air_quality_index ≤ 100)
    ∧ (0 ≤ (StorageCloset.get_telemetry ⟨0, 0, 0, 0, 90⟩).air_quality_index
      ∧ (StorageCloset.get_telemetry ⟨0, 0, 0, 0, 90⟩).air_quality_index ≤ 100)
    ∧ (0 ≤ (ExecutiveOffice.get_telemetry 3 ⟨0, 0, 0, 0, 420, 90⟩).air_quality_index
      ∧ (ExecutiveOffice.get_telemetry 3 ⟨0, 0, 0, 0, 420, 90⟩).air_quality_index ≤ 100) := by
  refine ⟨⟨by norm_num, by norm_num, ?_⟩, ⟨by norm_num, by norm_num, ?_⟩,
    ?_, ?_, ?_, ?_, ?_, ?_⟩
  · exact air_quality_index_in_range.1 ⟨0, 0, 0, 0, 95⟩ (by norm_num) (by norm_num)
  · exact air_quality_index_in_range.2.1 ConferenceRoom.init
      ⟨0, 0, 1 / 2, 0, 0, 450, 8⟩ (by norm_num) (by norm_num)
  · exact air_quality_index_in_range.2.2.2.1 ⟨0⟩ 12
      ⟨0, 0, 1 / 2, 0, 0, 0, 400, 6⟩ (by norm_num) (by norm_num)
  · exact air_quality_index_in_range.2.2.2.2.1 Kitchen.init
      ⟨1 / 2, 600, 0, 0, 1 / 2, 0, 0, 200, 1⟩ (by norm_num) (by norm_num)
  · exact air_quality_index_in_range.2.2.2.2.2.1
      ⟨0, 0, 0, 0, 0, 1 / 2, 300, 2, 40, 60⟩ (by norm_num) (by norm_num)
      (by norm_num) (by norm_num)
  · exact air_quality_index_in_range.2.2.2.2.2.2.1
      ⟨1 / 2, 0, 0, 0, 0, 50, 2, 80⟩ (by norm_num) (by norm_num)
  · exact air_quality_index_in_range.2.2.1 ⟨0, 0, 0, 0, 90⟩ (by norm_num) (by norm_num)
  · exact air_quality_index_in_range.2.2.2.2.2.2.2 3
      ⟨0, 0, 0, 0, 420, 90⟩ (by norm_num) (by norm_num)
